import Mathlib

/-
Verification development for the fake-GPS test harness in nmea/fake.py.

Modelling conventions, used throughout:
* Python floats are modelled as exact rationals (ℚ).  All claims proved
  below concern either exact string assembly, integer/bool control flow,
  or rational arithmetic that is exact in IEEE doubles at the inputs used.
* Python `%` on numbers is `pymod a b = a - b * ⌊a / b⌋` (sign of the
  divisor), raising ZeroDivisionError when b = 0.
* Python string conversions `%d`, `%02d`, `%06.3f`, `%.2f`, `%02X` are
  modelled by the executable builders below; `%f` rounding is
  round-half-even on the exact value.
* Fallible Python code is modelled with Except/Option: ZeroDivisionError,
  IndexError (list subscript), ValueError (list.remove of a missing
  element), and the NameError raised by ShipPlan.courseAtTime when the
  legs list is empty all map to error values.
-/

/-- Decimal digit character, as produced by Python integer formatting. -/
def digitChar (d : ℕ) : Char := Char.ofNat (48 + d)

/-- Digit list of a natural number, most significant first, with structural
fuel (any fuel above the digit count gives the full representation). -/
def decStrAux : ℕ → ℕ → List Char
  | 0, _ => []
  | fuel + 1, n =>
    if n < 10 then [digitChar n]
    else decStrAux fuel (n / 10) ++ [digitChar (n % 10)]

/-- Decimal representation of a natural number (Python percent-d on a
non-negative value). -/
def decStr (n : ℕ) : String := String.mk (decStrAux (n + 1) n)

/-- Uppercase hexadecimal digit character (Python percent-X). -/
def hexDigitChar (d : ℕ) : Char :=
  if d < 10 then Char.ofNat (48 + d) else Char.ofNat (55 + d)

/-- Hexadecimal digit list with structural fuel, most significant first. -/
def hexStrAux : ℕ → ℕ → List Char
  | 0, _ => []
  | fuel + 1, n =>
    if n < 16 then [hexDigitChar n]
    else hexStrAux fuel (n / 16) ++ [hexDigitChar (n % 16)]

/-- Uppercase hexadecimal representation of a natural number. -/
def hexStr (n : ℕ) : String := String.mk (hexStrAux (n + 1) n)

/-- Left-pad a string with zeros to the given width (Python zero-padded
width specifier on a non-negative number). -/
def padZeros (w : ℕ) (s : String) : String :=
  String.mk (List.replicate (w - s.length) '0') ++ s

/-- Round to the nearest integer, ties to even: the rounding Python uses
when formatting a float with a fixed number of decimals. -/
def roundHalfEven (q : ℚ) : ℤ :=
  if q - ⌊q⌋ < 1/2 then ⌊q⌋
  else if 1/2 < q - ⌊q⌋ then ⌊q⌋ + 1
  else if ⌊q⌋ % 2 = 0 then ⌊q⌋ else ⌊q⌋ + 1

/-- Python fixed-point float formatting with zero-padded minimum width
`width` and `prec` decimals (e.g. percent-06.3f). -/
def fmtFixedW (width prec : ℕ) (q : ℚ) : String :=
  let a := (roundHalfEven (|q| * 10 ^ prec)).toNat
  let core := decStr (a / 10 ^ prec) ++ "." ++ padZeros prec (decStr (a % 10 ^ prec))
  if q < 0 then "-" ++ padZeros (width - 1) core else padZeros width core

/-- Python percent-.2f: two decimals, no width padding. -/
def fmt2f (q : ℚ) : String := fmtFixedW 0 2 q

/-- Python percent-02d on an integer. -/
def fmt02d (i : ℤ) : String :=
  if i < 0 then "-" ++ padZeros 1 (decStr i.natAbs) else padZeros 2 (decStr i.natAbs)

/-- Python percent-02X: uppercase hex, zero-padded to at least two digits. -/
def fmt02X (n : ℕ) : String := padZeros 2 (hexStr n)

/-- Numeric value of an uppercase hexadecimal digit character. -/
def hexCharVal (c : Char) : ℕ :=
  if c.toNat ≤ 57 then c.toNat - 48 else c.toNat - 55

/-- The sixteen uppercase hexadecimal digit characters. -/
def hexUpperChars : List Char := "0123456789ABCDEF".data

/-- State of a GPSSimulator instance (nmea/fake.py, class GPSSimulator):
the mutable attributes set by __init__, setLatLon and _setTime.  The
`shipplan` attribute is passed separately to the functions that read it,
avoiding a circular type with ShipPlan. -/
structure GPSState where
  latitude : ℚ
  latitudeTxt : String
  latsign : String
  longitude : ℚ
  longitudeTxt : String
  longSign : String
  heading : ℚ
  speed : ℚ
  starttime : ℚ
  time : ℚ
  timestr : String
  deriving DecidableEq

/-- GPSSimulator.setLatLon: store the signed coordinates and recompute the
four derived textual fields.  Source formats degrees with percent-02d and
minutes with percent-06.3f, hemisphere letters by sign. -/
def setLatLon (lat lon : ℚ) (s : GPSState) : GPSState :=
  let absLat := |lat|
  let absLon := |lon|
  { s with
    latitude := lat
    latitudeTxt := fmt02d ⌊absLat⌋ ++ fmtFixedW 6 3 ((absLat - (⌊absLat⌋ : ℚ)) * 60)
    latsign := if lat < 0 then "S" else "N"
    longitude := lon
    longitudeTxt := fmt02d ⌊absLon⌋ ++ fmtFixedW 6 3 ((absLon - (⌊absLon⌋ : ℚ)) * 60)
    longSign := if lon < 0 then "W" else "E" }

/-- The HHMMSS.000 timestamp built by GPSSimulator._setTime from
time.gmtime of the simulated clock (non-negative epoch seconds). -/
def timeStr (t : ℚ) : String :=
  let n := (⌊t⌋).toNat
  padZeros 2 (decStr (n / 3600 % 24)) ++ padZeros 2 (decStr (n / 60 % 60)) ++
    padZeros 2 (decStr (n % 60)) ++ ".000"

/-- The sentence body assembled by GPSSimulator.feed (the text between the
leading dollar sign and the star): GPRMC, timestamp, status A, latitude
text and hemisphere, longitude text and hemisphere, speed and heading with
percent-.2f, the fixed date 280511, and the trailing fields. -/
def feedBody (s : GPSState) : String :=
  "GPRMC," ++ s.timestr ++ ",A," ++ s.latitudeTxt ++ "," ++ s.latsign ++ "," ++
    s.longitudeTxt ++ "," ++ s.longSign ++ "," ++ fmt2f s.speed ++ "," ++
    fmt2f s.heading ++ ",280511,,,S"

/-- The checksum of GPSSimulator.feed: reduce(operator.xor) over the byte
values of the body, starting from 0. -/
def xorBytes (t : String) : ℕ := t.data.foldl (fun a c => a ^^^ c.toNat) 0

/-- The full string returned by GPSSimulator.feed for the current state:
dollar sign, body, star, percent-02X checksum, CRLF.  (feed itself first
sleeps one real second and calls nextPos, whose trigonometric
dead-reckoning step is floating-point; every string feed returns is
`feedSentence` of the post-step state, whose textual fields were produced
by `setLatLon`.) -/
def feedSentence (s : GPSState) : String :=
  "$" ++ feedBody s ++ "*" ++ fmt02X (xorBytes (feedBody s)) ++ "\r\n"

/-- A concrete simulator state used to instantiate universally quantified
theorems (speed 1, heading 0, the timestamp of the repository's fixtures). -/
def blankState : GPSState :=
  { latitude := 0, latitudeTxt := "", latsign := "N", longitude := 0,
    longitudeTxt := "", longSign := "E", heading := 0, speed := 1,
    starttime := 0, time := 0, timestr := "073123.000" }

/-- One voyage leg (nmea/fake.py, ShipPlan.addLeg appends the triple
[length, course, speed]). -/
structure Leg where
  length : ℚ
  course : ℚ
  speed : ℚ
  deriving DecidableEq

/-- State of a ShipPlan instance: start coordinates, the ordered legs, and
the running _totalLength accumulator. -/
structure ShipPlan where
  startlatitude : ℚ
  startlongitude : ℚ
  legs : List Leg
  totalLength : ℚ
  deriving DecidableEq

/-- ShipPlan.__init__ : empty legs, zero total length. -/
def ShipPlan.init (latitude longitude : ℚ) : ShipPlan :=
  { startlatitude := latitude, startlongitude := longitude, legs := [], totalLength := 0 }

/-- ShipPlan.addLeg: append the leg and add its length to _totalLength
(the source adds unconditionally, with no sign test). -/
def ShipPlan.addLeg (p : ShipPlan) (length course speed : ℚ) : ShipPlan :=
  { p with legs := p.legs ++ [⟨length, course, speed⟩],
           totalLength := p.totalLength + length }

/-- Python numeric modulo: result carries the sign of the divisor.
Division by zero is handled by the callers (ZeroDivisionError). -/
def pymod (a b : ℚ) : ℚ := a - b * ⌊a / b⌋

/-- The leg scan of ShipPlan.courseAtTime: walk the legs in order with an
accumulator; a negative length returns immediately; otherwise add the
length and return if the elapsed value is below the accumulated length;
if the loop exhausts, the loop variables retain the last leg, which the
final return statement yields.  An empty legs list is the NameError case
(the loop variables were never bound): `none`. -/
def scanLegs (when : ℚ) : List Leg → ℚ → Option (ℚ × ℚ)
  | [], _ => none
  | l :: rest, acc =>
    if l.length < 0 then some (l.course, l.speed)
    else if when < acc + l.length then some (l.course, l.speed)
    else
      match rest with
      | [] => some (l.course, l.speed)
      | _ :: _ => scanLegs when rest (acc + l.length)

/-- ShipPlan.courseAtTime: reduce `when` modulo _totalLength (none models
the ZeroDivisionError when _totalLength is zero); if the reduced value is
zero and a simulator is supplied, reset it to the start coordinates; then
scan the legs.  The returned pair is (course, speed); the returned option
is the possibly-reset simulator. -/
def ShipPlan.courseAtTime (p : ShipPlan) (when : ℚ) (sim : Option GPSState) :
    Option ((ℚ × ℚ) × Option GPSState) :=
  if p.totalLength = 0 then none
  else
    let w := pymod when p.totalLength
    let sim2 := if w = 0 then sim.map (setLatLon p.startlatitude p.startlongitude) else sim
    (scanLegs w p.legs 0).map fun cs => (cs, sim2)

/-- Modelled from the spec: the "total finite leg length" of a plan, the
sum of all non-sentinel (non-negative) leg lengths (spec section 3).  The
code has no such quantity; its stored `totalLength` sums all lengths. -/
def ShipPlan.finiteLength (p : ShipPlan) : ℚ :=
  (p.legs.map fun l => if 0 ≤ l.length then l.length else 0).sum

/-- GPSSimulator._setTime: if a plan is bound, evaluate it at the elapsed
time (which may reset the position) and install the returned heading and
speed; then set the clock and its textual form. -/
def setTime (shipplan : Option ShipPlan) (newtime : ℚ) (s : GPSState) : Option GPSState :=
  match shipplan with
  | none => some { s with time := newtime, timestr := timeStr newtime }
  | some p =>
    match p.courseAtTime (newtime - s.starttime) (some s) with
    | none => none
    | some (cs, sim2) =>
      some { (sim2.getD s) with
             heading := cs.1, speed := cs.2,
             time := newtime, timestr := timeStr newtime }

/-- GPSSimulator.__init__ : setLatLon with the given coordinates, record
start time, heading (course) and speed, then _setTime(currtime). -/
def GPSSimulator.init (currtime latitude longitude course speed : ℚ)
    (shipplan : Option ShipPlan) : Option GPSState :=
  setTime shipplan currtime
    (setLatLon latitude longitude
      { latitude := 0, latitudeTxt := "", latsign := "N", longitude := 0,
        longitudeTxt := "", longSign := "E", heading := course, speed := speed,
        starttime := currtime, time := 0, timestr := "" })

/-- Python exceptions that the modelled scheduler operations can raise. -/
inductive PyError where
  | zeroDivision
  | indexError
  | valueError
  deriving DecidableEq

/-- The scheduler state of nmea/fake.py's TestSession that choose/append/
remove touch: the run queue and the cursor index (a Python int, so ℤ).
The writer/reader counters and the lock are orthogonal to the claims
below and are not modelled. -/
structure TestSession (α : Type) where
  runqueue : List α
  index : ℤ
  deriving DecidableEq

/-- Python list subscription with an integer index: negative indices count
from the end; anything else out of range is an IndexError. -/
def pyIndex {α : Type} (l : List α) (i : ℤ) : Except PyError α :=
  let j := if i < 0 then i + l.length else i
  if 0 ≤ j then
    match l.get? j.toNat with
    | some x => .ok x
    | none => .error .indexError
  else .error .indexError

/-- TestSession.choose: remember the cursor, advance it by one modulo the
current queue length (ZeroDivisionError on an empty queue), and return the
element at the remembered position. -/
def TestSession.choose {α : Type} (s : TestSession α) :
    Except PyError (α × TestSession α) :=
  if s.runqueue.length = 0 then .error .zeroDivision
  else
    (pyIndex s.runqueue s.index).map fun x =>
      (x, { s with index := (s.index + 1) % (s.runqueue.length : ℤ) })

/-- TestSession.append: push the object onto the run queue (the writer and
reader counters it also bumps are not modelled). -/
def TestSession.append {α : Type} (x : α) (s : TestSession α) : TestSession α :=
  { s with runqueue := s.runqueue ++ [x] }

/-- TestSession.remove: delete the first occurrence of the object from the
run queue (ValueError if absent), then clamp the cursor with
index = min(len(runqueue) - 1, index).  There is no lower clamp. -/
def TestSession.remove {α : Type} [DecidableEq α] (x : α) (s : TestSession α) :
    Except PyError (TestSession α) :=
  if x ∈ s.runqueue then
    let q := s.runqueue.erase x
    .ok { s with runqueue := q, index := min ((q.length : ℤ) - 1) s.index }
  else .error .valueError

/-- The start of one iteration of TestSession.run's loop: the loop first
drains gpsd's writes back to each pty (I/O with no scheduler state), sets
had_output to False, and then calls choose().  The empty-queue termination
test (`not self.writers and not had_output`) only comes later in the body,
after the chosen entry has been dispatched. -/
def TestSession.runFirstTurn {α : Type} (s : TestSession α) :
    Except PyError (α × TestSession α) :=
  s.choose

/-- The grace interval (seconds) between a device's go predicate turning
false and its removal from the run queue (nmea/fake.py CLOSE_DELAY). -/
def CLOSE_DELAY : ℚ := 1

/-- The per-device lifecycle state TestSession.run reads and writes: the
`exhausted` timestamp, 0 while the device is still active (gps_add
initialises newgps.exhausted = 0). -/
structure FakePTY where
  exhausted : ℚ
  deriving DecidableEq

/-- What TestSession.run does with the chosen device on one turn. -/
inductive TurnAction where
  | removed
  | marked
  | skipped
  | fed
  deriving DecidableEq

/-- The FakePTY branch of TestSession.run's loop body, for the chosen
device: if the exhausted mark is set (non-zero, Python truthiness) and
more than CLOSE_DELAY has passed since it, remove the device; otherwise if
the go predicate (evaluated this turn, passed here as `pred`) is false,
set the mark to the current time if it is still unset; otherwise feed.
`now` is time.time() at this turn. -/
def deviceTurn (now : ℚ) (pred : Bool) (d : FakePTY) : TurnAction × FakePTY :=
  if d.exhausted ≠ 0 ∧ CLOSE_DELAY < now - d.exhausted then (.removed, d)
  else if pred = false then
    if d.exhausted = 0 then (.marked, { exhausted := now })
    else (.skipped, d)
  else (.fed, d)

/-- The single-sentinel-leg plan of the repository test
TestShipPLans.testSimple: one leg of length -1, course 0, speed 10. -/
def sentinelPlan : ShipPlan := (ShipPlan.init 0 0).addLeg (-1) 0 10

/-- The two-leg plan of the repository test TestShipPLans.testTwoLegs,
given start coordinates (1, 2). -/
def twoLegPlan : ShipPlan := ((ShipPlan.init 1 2).addLeg 60 0 10).addLeg 60 90 11

/-- A plan mixing finite legs with a trailing sentinel leg: lengths 2, 3
and -1.  Its stored totalLength is 4 while its finite leg length is 5. -/
def mixedPlan : ShipPlan :=
  (((ShipPlan.init 0 0).addLeg 2 10 1).addLeg 3 20 2).addLeg (-1) 30 3

/-- A one-leg plan with distinctive start coordinates and leg data, used
to instantiate the constructor claim. -/
def oneLegPlan : ShipPlan := (ShipPlan.init 5 6).addLeg 60 7 8

/-- A concrete scheduler state used to instantiate the amended index
claim: two entries, cursor at the front. -/
def sessionExample : TestSession ℕ := ⟨[1, 2], 0⟩

theorem length_mk (l : List Char) : (String.mk l).length = l.length := rfl

theorem mk_append (a b : List Char) : String.mk a ++ String.mk b = String.mk (a ++ b) := rfl

theorem padZeros_length (w : ℕ) (s : String) : (padZeros w s).length = max w s.length := by
  unfold padZeros
  rw [String.length_append, length_mk, List.length_replicate]
  omega

theorem decStrAux_length_pos : ∀ (fuel n : ℕ), 0 < fuel → 1 ≤ (decStrAux fuel n).length := by
  intro fuel n hf
  cases fuel with
  | zero => omega
  | succ fuel =>
    rw [decStrAux]
    split
    · simp
    · simp

theorem decStr_length_pos (n : ℕ) : 1 ≤ (decStr n).length := by
  rw [decStr, length_mk]
  exact decStrAux_length_pos (n + 1) n (by omega)

theorem decStrAux_length_le :
    ∀ (fuel n k : ℕ), 0 < k → n < 10 ^ k → (decStrAux fuel n).length ≤ k := by
  intro fuel
  induction fuel with
  | zero => intro n k _ _; simp [decStrAux]
  | succ fuel ih =>
    intro n k hk hn
    by_cases h : n < 10
    · rw [decStrAux, if_pos h]
      simpa using hk
    · rw [decStrAux, if_neg h]
      have hk2 : 2 ≤ k := by
        by_contra hc
        have hk1 : k = 1 := by omega
        subst hk1
        simp at hn
        omega
      have hd : n / 10 < 10 ^ (k - 1) := by
        rw [Nat.div_lt_iff_lt_mul (by omega)]
        calc n < 10 ^ k := hn
        _ = 10 ^ (k - 1) * 10 := by
            rw [← pow_succ]
            congr 1
            omega
      have := ih (n / 10) (k - 1) (by omega) hd
      simp only [List.length_append, List.length_singleton]
      omega

theorem decStr_length_le (k n : ℕ) (hk : 0 < k) (hn : n < 10 ^ k) :
    (decStr n).length ≤ k := by
  rw [decStr, length_mk]
  exact decStrAux_length_le (n + 1) n k hk hn

theorem roundHalfEven_eq_floor_or (q : ℚ) :
    roundHalfEven q = ⌊q⌋ ∨ roundHalfEven q = ⌊q⌋ + 1 := by
  unfold roundHalfEven
  split_ifs <;> simp

theorem fmt02d_length {i : ℤ} (h0 : 0 ≤ i) (h : i < 100) : (fmt02d i).length = 2 := by
  unfold fmt02d
  rw [if_neg (by omega), padZeros_length]
  have h1 := decStr_length_le 2 i.natAbs (by omega) (by norm_num; omega)
  omega

theorem fmtFixedW63_length {m : ℚ} (h0 : 0 ≤ m) (h : m < 60) :
    (fmtFixedW 6 3 m).length = 6 := by
  unfold fmtFixedW
  rw [if_neg (not_lt.mpr h0)]
  simp only [show ((10 : ℚ) ^ (3 : ℕ)) = 1000 by norm_num,
    show (10 : ℕ) ^ (3 : ℕ) = 1000 from rfl]
  rw [padZeros_length, String.length_append, String.length_append, padZeros_length]
  have habs : |m| = m := abs_of_nonneg h0
  have hfl : ⌊|m| * 1000⌋ < 60000 := by
    rw [Int.floor_lt, habs]
    push_cast
    nlinarith
  have hrhe : roundHalfEven (|m| * 1000) ≤ 60000 := by
    rcases roundHalfEven_eq_floor_or (|m| * 1000) with hE | hE <;> omega
  have haN : (roundHalfEven (|m| * 1000)).toNat ≤ 60000 := by omega
  have l1 := decStr_length_le 2 ((roundHalfEven (|m| * 1000)).toNat / 1000)
    (by omega) (by simp only [show (10 : ℕ) ^ (2 : ℕ) = 100 from rfl]; omega)
  have l2 := decStr_length_le 3 ((roundHalfEven (|m| * 1000)).toNat % 1000)
    (by omega) (by simp only [show (10 : ℕ) ^ (3 : ℕ) = 1000 from rfl]; omega)
  have hdot : (".").length = 1 := rfl
  omega

theorem decStr_length_eq_one {n : ℕ} (h : n < 10) : (decStr n).length = 1 := by
  rw [decStr, length_mk, decStrAux, if_pos h]
  simp

theorem roundHalfEven_le_of_le {q : ℚ} {B : ℤ} (h : q ≤ B) : roundHalfEven q ≤ B := by
  have hf : ⌊q⌋ ≤ B := by
    have := Int.floor_le_floor h
    simpa using this
  unfold roundHalfEven
  split_ifs with h1 h2 h3
  · exact hf
  · have hlt : ⌊q⌋ < B := by
      by_contra hc
      push_neg at hc
      have hc2 : (B : ℚ) ≤ ⌊q⌋ := by exact_mod_cast hc
      have := Int.floor_le q
      linarith
    omega
  · exact hf
  · have h4 : q - ⌊q⌋ = 1/2 := le_antisymm (not_lt.mp h2) (not_lt.mp h1)
    have hlt : ⌊q⌋ < B := by
      by_contra hc
      push_neg at hc
      have hc2 : (B : ℚ) ≤ ⌊q⌋ := by exact_mod_cast hc
      linarith
    omega

theorem fmt2f_length {q : ℚ} (h0 : 0 ≤ q) (h : q ≤ 9) : (fmt2f q).length = 4 := by
  unfold fmt2f fmtFixedW
  rw [if_neg (not_lt.mpr h0)]
  simp only [show ((10 : ℚ) ^ (2 : ℕ)) = 100 by norm_num,
    show (10 : ℕ) ^ (2 : ℕ) = 100 from rfl]
  rw [padZeros_length, String.length_append, String.length_append, padZeros_length]
  have habs : |q| = q := abs_of_nonneg h0
  have hle : |q| * 100 ≤ ((900 : ℤ) : ℚ) := by
    rw [habs]
    push_cast
    nlinarith
  have hrhe : roundHalfEven (|q| * 100) ≤ 900 := roundHalfEven_le_of_le hle
  have haN : (roundHalfEven (|q| * 100)).toNat ≤ 900 := by omega
  have l1 : (decStr ((roundHalfEven (|q| * 100)).toNat / 100)).length = 1 :=
    decStr_length_eq_one (by omega)
  have l2 := decStr_length_le 2 ((roundHalfEven (|q| * 100)).toNat % 100)
    (by omega) (by simp only [show (10 : ℕ) ^ (2 : ℕ) = 100 from rfl]; omega)
  have hdot : (".").length = 1 := rfl
  omega

theorem hexStrAux_of_lt : ∀ (fuel n : ℕ), 0 < fuel → n < 16 →
    hexStrAux fuel n = [hexDigitChar n] := by
  intro fuel n hf h
  cases fuel with
  | zero => omega
  | succ fuel => rw [hexStrAux, if_pos h]

theorem hexStr_of_lt {n : ℕ} (h : n < 16) : hexStr n = String.mk [hexDigitChar n] := by
  rw [hexStr, hexStrAux_of_lt (n + 1) n (by omega) h]

theorem fmt02X_pair {n : ℕ} (h : n < 256) :
    fmt02X n = String.mk [hexDigitChar (n / 16), hexDigitChar (n % 16)] := by
  unfold fmt02X
  by_cases h16 : n < 16
  · rw [hexStr_of_lt h16, Nat.div_eq_of_lt h16, Nat.mod_eq_of_lt h16]
    rfl
  · rw [hexStr, hexStrAux, if_neg h16,
      hexStrAux_of_lt n (n / 16) (by omega) (by omega)]
    rfl

theorem hexDigitChar_val : ∀ d, d < 16 → hexCharVal (hexDigitChar d) = d := by decide

theorem hexDigitChar_mem : ∀ d, d < 16 → hexDigitChar d ∈ hexUpperChars := by decide

theorem foldl_xor_lt : ∀ (l : List Char), (∀ c ∈ l, c.toNat < 256) →
    ∀ a, a < 256 → l.foldl (fun x c => x ^^^ c.toNat) a < 256 := by
  intro l
  induction l with
  | nil => intro _ a ha; simpa using ha
  | cons c t ih =>
    intro hl a ha
    simp only [List.foldl_cons]
    refine ih (fun x hx => hl x (List.mem_cons_of_mem _ hx)) _ ?_
    have hc : c.toNat < 256 := hl c (List.mem_cons_self _ _)
    have h8 : (256 : ℕ) = 2 ^ 8 := by norm_num
    rw [h8] at ha hc ⊢
    exact Nat.xor_lt_two_pow ha hc

theorem foldl_xor_shift (l : List Char) :
    ∀ a, l.foldl (fun x c => x ^^^ c.toNat) a = a ^^^ l.foldl (fun x c => x ^^^ c.toNat) 0 := by
  induction l with
  | nil => intro a; simp
  | cons c t ih =>
    intro a
    simp only [List.foldl_cons]
    rw [ih (a ^^^ c.toNat), ih (0 ^^^ c.toNat), Nat.zero_xor, Nat.xor_assoc]

theorem pymod_zero_left (b : ℚ) : pymod 0 b = 0 := by
  simp [pymod]

theorem pymod_add_self {a b : ℚ} (hb : b ≠ 0) : pymod (a + b) b = pymod a b := by
  unfold pymod
  have hdiv : (a + b) / b = a / b + 1 := by
    field_simp
  rw [hdiv, Int.floor_add_one]
  push_cast
  ring

theorem scanLegs_isSome (w : ℚ) :
    ∀ (legs : List Leg) (acc : ℚ), legs ≠ [] → (scanLegs w legs acc).isSome := by
  intro legs
  induction legs with
  | nil => intro acc hne; exact absurd rfl hne
  | cons l rest ih =>
    intro acc _
    rw [scanLegs.eq_def]
    dsimp only
    split_ifs
    · simp
    · simp
    · cases rest with
      | nil => simp
      | cons r rs => exact ih (acc + l.length) (by simp)

theorem foldl_addLeg_totalLength :
    ∀ (calls : List (ℚ × ℚ × ℚ)) (p : ShipPlan),
      (calls.foldl (fun q a => q.addLeg a.1 a.2.1 a.2.2) p).totalLength =
        p.totalLength + (calls.map fun a => a.1).sum := by
  intro calls
  induction calls with
  | nil => intro p; simp
  | cons a t ih =>
    intro p
    simp only [List.foldl_cons, List.map_cons, List.sum_cons]
    rw [ih]
    simp only [ShipPlan.addLeg]
    ring

theorem fmt02X_mem_hexUpper {n : ℕ} (h : n < 256) :
    ∀ c ∈ (fmt02X n).data, c ∈ hexUpperChars := by
  rw [fmt02X_pair h]
  intro c hc
  have hor : c = hexDigitChar (n / 16) ∨ c = hexDigitChar (n % 16) := by
    simpa using hc
  rcases hor with rfl | rfl
  · exact hexDigitChar_mem _ (by omega)
  · exact hexDigitChar_mem _ (by omega)

theorem hex_pair_decode {n : ℕ} (h : n < 256) :
    hexCharVal (hexDigitChar (n / 16)) * 16 + hexCharVal (hexDigitChar (n % 16)) = n := by
  rw [hexDigitChar_val _ (by omega), hexDigitChar_val _ (by omega)]
  omega

theorem foldl_xor_self_eq_zero (t : String) :
    t.data.foldl (fun a c => a ^^^ c.toNat) (xorBytes t) = 0 := by
  rw [foldl_xor_shift]
  exact Nat.xor_self _

theorem fmt2f_one : fmt2f 1 = "1.00" := by
  simp only [fmt2f, fmtFixedW]
  rw [show |(1 : ℚ)| * 10 ^ 2 = 100 by norm_num]
  rw [show roundHalfEven (100 : ℚ) = 100 by unfold roundHalfEven; norm_num]
  rw [if_neg (by norm_num : ¬ (1 : ℚ) < 0)]
  rfl

theorem fmt2f_zero : fmt2f 0 = "0.00" := by
  simp only [fmt2f, fmtFixedW]
  rw [show |(0 : ℚ)| * 10 ^ 2 = 0 by norm_num]
  rw [show roundHalfEven (0 : ℚ) = 0 by unfold roundHalfEven; norm_num]
  rw [if_neg (by norm_num : ¬ (0 : ℚ) < 0)]
  rfl

theorem feedBody_blankState :
    feedBody blankState = "GPRMC,073123.000,A,,N,,E,1.00,0.00,280511,,,S" := by
  simp only [feedBody, blankState]
  rw [fmt2f_one, fmt2f_zero]
  rfl

/-- Claim C1: for every sentence string returned by GPSSimulator.feed, the
two hex digits printed after the star are the uppercase hexadecimal of the
XOR of all bytes of the body between the dollar sign and the star, and
XORing the body's bytes again starting from the printed checksum value
yields zero.  (The hypothesis that every body byte is below 256 holds for
every reachable state, whose fields are ASCII by construction.) -/
theorem c1_checksum_roundtrip (s : GPSState)
    (h : ∀ c ∈ (feedBody s).data, c.toNat < 256) :
    feedSentence s = "$" ++ feedBody s ++ "*" ++ fmt02X (xorBytes (feedBody s)) ++ "\r\n" ∧
    xorBytes (feedBody s) < 256 ∧
    fmt02X (xorBytes (feedBody s)) =
      String.mk [hexDigitChar (xorBytes (feedBody s) / 16),
        hexDigitChar (xorBytes (feedBody s) % 16)] ∧
    (∀ c ∈ (fmt02X (xorBytes (feedBody s))).data, c ∈ hexUpperChars) ∧
    hexCharVal (hexDigitChar (xorBytes (feedBody s) / 16)) * 16 +
      hexCharVal (hexDigitChar (xorBytes (feedBody s) % 16)) = xorBytes (feedBody s) ∧
    (feedBody s).data.foldl (fun a c => a ^^^ c.toNat) (xorBytes (feedBody s)) = 0 := by
  have hlt : xorBytes (feedBody s) < 256 := foldl_xor_lt _ h 0 (by norm_num)
  exact ⟨rfl, hlt, fmt02X_pair hlt, fmt02X_mem_hexUpper hlt, hex_pair_decode hlt,
    foldl_xor_self_eq_zero _⟩

/-- Claim C1 witness: the checksum relations evaluated at the concrete
state `blankState` (speed 1, heading 0, empty position texts). -/
theorem c1_checksum_roundtrip_witness :
    (∀ c ∈ (feedBody blankState).data, c.toNat < 256) ∧
    (feedSentence blankState =
      "$" ++ feedBody blankState ++ "*" ++ fmt02X (xorBytes (feedBody blankState)) ++ "\r\n" ∧
    xorBytes (feedBody blankState) < 256 ∧
    fmt02X (xorBytes (feedBody blankState)) =
      String.mk [hexDigitChar (xorBytes (feedBody blankState) / 16),
        hexDigitChar (xorBytes (feedBody blankState) % 16)] ∧
    (∀ c ∈ (fmt02X (xorBytes (feedBody blankState))).data, c ∈ hexUpperChars) ∧
    hexCharVal (hexDigitChar (xorBytes (feedBody blankState) / 16)) * 16 +
      hexCharVal (hexDigitChar (xorBytes (feedBody blankState) % 16)) =
        xorBytes (feedBody blankState) ∧
    (feedBody blankState).data.foldl (fun a c => a ^^^ c.toNat)
      (xorBytes (feedBody blankState)) = 0) :=
  ⟨by rw [feedBody_blankState]; decide,
   c1_checksum_roundtrip blankState (by rw [feedBody_blankState]; decide)⟩

theorem fmtFixedW63_thirty : fmtFixedW 6 3 (30 : ℚ) = "30.000" := by
  simp only [fmtFixedW]
  rw [show |(30 : ℚ)| * 10 ^ 3 = 30000 by norm_num]
  rw [show roundHalfEven (30000 : ℚ) = 30000 by unfold roundHalfEven; norm_num]
  rw [if_neg (by norm_num : ¬ (30 : ℚ) < 0)]
  rfl

theorem setLatLon_example :
    setLatLon 57.5 11.5 blankState =
      { latitude := 57.5, latitudeTxt := "5730.000", latsign := "N",
        longitude := 11.5, longitudeTxt := "1130.000", longSign := "E",
        heading := 0, speed := 1, starttime := 0, time := 0,
        timestr := "073123.000" } := by
  simp only [setLatLon, blankState]
  rw [show |(57.5 : ℚ)| = 57.5 from abs_of_nonneg (by norm_num),
      show |(11.5 : ℚ)| = 11.5 from abs_of_nonneg (by norm_num)]
  rw [show (⌊(57.5 : ℚ)⌋ : ℤ) = 57 by norm_num,
      show (⌊(11.5 : ℚ)⌋ : ℤ) = 11 by norm_num]
  rw [show ((57.5 : ℚ) - ((57 : ℤ) : ℚ)) * 60 = 30 by norm_num,
      show ((11.5 : ℚ) - ((11 : ℤ) : ℚ)) * 60 = 30 by norm_num]
  rw [fmtFixedW63_thirty]
  rw [if_neg (by norm_num : ¬ (57.5 : ℚ) < 0), if_neg (by norm_num : ¬ (11.5 : ℚ) < 0)]
  rfl

/-- Claim C3 counterexample: at the concrete position 57.5 N, 11.5 E with
speed 1, the emitted body is
"GPRMC,073123.000,A,5730.000,N,1130.000,E,1.00,0.00,280511,,,S": the
longitude field "1130.000" has 8 characters (two degree digits, DDMM.mmm),
not the 9 (DDDMM.mmm) the claimed template requires, and the speed field
"1.00" is not of the claimed shape SSS.SS (6 characters).  (The
repository's own fixtures show the same: "1141.713" and "1.00".) -/
theorem c3_template_counterexample :
    feedBody (setLatLon 57.5 11.5 blankState) =
      "GPRMC,073123.000,A,5730.000,N,1130.000,E,1.00,0.00,280511,,,S" ∧
    (setLatLon 57.5 11.5 blankState).longitudeTxt = "1130.000" ∧
    ¬ (setLatLon 57.5 11.5 blankState).longitudeTxt.length = 9 ∧
    fmt2f blankState.speed = "1.00" ∧
    ¬ (fmt2f blankState.speed).length = 6 := by
  refine ⟨?_, ?_, ?_, fmt2f_one, ?_⟩
  · rw [setLatLon_example]
    simp only [feedBody]
    rw [fmt2f_one, fmt2f_zero]
    rfl
  · rw [setLatLon_example]
  · rw [setLatLon_example]
    decide
  · rw [show fmt2f blankState.speed = "1.00" from fmt2f_one]
    decide

/-- Claim C3 amended: every emitted body follows the fixed field template,
but the longitude degrees are zero-padded to only two digits (DDMM.mmm, 8
characters, for longitudes below 100 degrees; likewise the latitude), and
the speed and course are formatted percent-.2f with no width padding (4
characters for speeds up to 9 knots), not SSS.SS. -/
theorem c3_template_amended (lat lon q : ℚ) (s : GPSState) :
    feedBody (setLatLon lat lon s) =
      "GPRMC," ++ s.timestr ++ ",A," ++ (setLatLon lat lon s).latitudeTxt ++ "," ++
        (if lat < 0 then "S" else "N") ++ "," ++ (setLatLon lat lon s).longitudeTxt ++ "," ++
        (if lon < 0 then "W" else "E") ++ "," ++ fmt2f s.speed ++ "," ++
        fmt2f s.heading ++ ",280511,,,S" ∧
    (|lat| < 100 → (setLatLon lat lon s).latitudeTxt.length = 8) ∧
    (|lon| < 100 → (setLatLon lat lon s).longitudeTxt.length = 8) ∧
    (0 ≤ q → q ≤ 9 → (fmt2f q).length = 4) := by
  refine ⟨?_, ?_, ?_, fun h0 h9 => fmt2f_length h0 h9⟩
  · simp [feedBody, setLatLon]
  · intro hlat
    simp only [setLatLon]
    rw [String.length_append]
    rw [fmt02d_length (Int.floor_nonneg.mpr (abs_nonneg lat))
        (by rw [Int.floor_lt]; push_cast; exact hlat)]
    have hm0 : 0 ≤ (|lat| - (⌊|lat|⌋ : ℚ)) * 60 :=
      mul_nonneg (sub_nonneg.mpr (Int.floor_le _)) (by norm_num)
    have hm1 : (|lat| - (⌊|lat|⌋ : ℚ)) * 60 < 60 := by
      have := Int.lt_floor_add_one |lat|
      nlinarith
    rw [fmtFixedW63_length hm0 hm1]
  · intro hlon
    simp only [setLatLon]
    rw [String.length_append]
    rw [fmt02d_length (Int.floor_nonneg.mpr (abs_nonneg lon))
        (by rw [Int.floor_lt]; push_cast; exact hlon)]
    have hm0 : 0 ≤ (|lon| - (⌊|lon|⌋ : ℚ)) * 60 :=
      mul_nonneg (sub_nonneg.mpr (Int.floor_le _)) (by norm_num)
    have hm1 : (|lon| - (⌊|lon|⌋ : ℚ)) * 60 < 60 := by
      have := Int.lt_floor_add_one |lon|
      nlinarith
    rw [fmtFixedW63_length hm0 hm1]

/-- Claim C3 amended witness: the amended template facts at latitude 57.5,
longitude 11.5, speed 1, on the concrete state `blankState`. -/
theorem c3_template_amended_witness :
    feedBody (setLatLon 57.5 11.5 blankState) =
      "GPRMC," ++ blankState.timestr ++ ",A," ++
        (setLatLon 57.5 11.5 blankState).latitudeTxt ++ "," ++
        (if (57.5 : ℚ) < 0 then "S" else "N") ++ "," ++
        (setLatLon 57.5 11.5 blankState).longitudeTxt ++ "," ++
        (if (11.5 : ℚ) < 0 then "W" else "E") ++ "," ++ fmt2f blankState.speed ++ "," ++
        fmt2f blankState.heading ++ ",280511,,,S" ∧
    (setLatLon 57.5 11.5 blankState).latitudeTxt.length = 8 ∧
    (setLatLon 57.5 11.5 blankState).longitudeTxt.length = 8 ∧
    (fmt2f 1).length = 4 :=
  ⟨(c3_template_amended 57.5 11.5 1 blankState).1,
   (c3_template_amended 57.5 11.5 1 blankState).2.1
     (by rw [abs_of_nonneg (by norm_num : (0 : ℚ) ≤ 57.5)]; norm_num),
   (c3_template_amended 57.5 11.5 1 blankState).2.2.1
     (by rw [abs_of_nonneg (by norm_num : (0 : ℚ) ≤ 11.5)]; norm_num),
   (c3_template_amended 57.5 11.5 1 blankState).2.2.2 (by norm_num) (by norm_num)⟩

/-- Claim C4 counterexample: addLeg(-1, 0, 10) on a fresh plan adds the
negative sentinel length to the stored total as well — the stored total
becomes -1, while the sum of the non-sentinel (non-negative) leg lengths
is 0, so the stored total is not that sum. -/
theorem c4_addleg_counterexample :
    ((ShipPlan.init 0 0).addLeg (-1) 0 10).totalLength = -1 ∧
    ((ShipPlan.init 0 0).addLeg (-1) 0 10).finiteLength = 0 ∧
    ((ShipPlan.init 0 0).addLeg (-1) 0 10).totalLength ≠
      ((ShipPlan.init 0 0).addLeg (-1) 0 10).finiteLength := by
  have h1 : ((ShipPlan.init 0 0).addLeg (-1) 0 10).totalLength = -1 := by
    simp only [ShipPlan.addLeg, ShipPlan.init]
    norm_num
  have h2 : ((ShipPlan.init 0 0).addLeg (-1) 0 10).finiteLength = 0 := by
    simp only [ShipPlan.finiteLength, ShipPlan.addLeg, ShipPlan.init, List.nil_append,
      List.map_cons, List.map_nil, List.sum_cons, List.sum_nil]
    rw [if_neg (by norm_num : ¬ (0 : ℚ) ≤ (Leg.mk (-1) 0 10).length)]
    norm_num
  refine ⟨h1, h2, ?_⟩
  rw [h1, h2]
  norm_num

/-- Claim C4 amended: addLeg appends the leg, and adds its length to the
stored total unconditionally — also when the length is negative; after any
sequence of addLeg calls on a fresh plan the stored total equals the sum
of all leg lengths, sentinel legs included. -/
theorem c4_addleg_amended (p : ShipPlan) (len course speed lat lon : ℚ)
    (calls : List (ℚ × ℚ × ℚ)) :
    (p.addLeg len course speed).legs = p.legs ++ [⟨len, course, speed⟩] ∧
    (p.addLeg len course speed).totalLength = p.totalLength + len ∧
    (calls.foldl (fun q a => q.addLeg a.1 a.2.1 a.2.2) (ShipPlan.init lat lon)).totalLength =
      (calls.map fun a => a.1).sum := by
  refine ⟨rfl, rfl, ?_⟩
  rw [foldl_addLeg_totalLength]
  simp [ShipPlan.init]

/-- Claim C5 counterexample: for the plan with legs of lengths 2, 3 and a
trailing -1 sentinel, the total finite leg length is 5, but courseAt is
not periodic with period 5: courseAt(1) is the first leg's (10, 1) while
courseAt(1 + 5) is the second leg's (20, 2) — the code reduces elapsed
time modulo the stored total 4 (the sum including the sentinel). -/
theorem c5_period_counterexample :
    mixedPlan.finiteLength = 5 ∧
    (mixedPlan.courseAtTime 1 none).map Prod.fst = some (10, 1) ∧
    (mixedPlan.courseAtTime (1 + mixedPlan.finiteLength) none).map Prod.fst = some (20, 2) ∧
    ((10 : ℚ), (1 : ℚ)) ≠ ((20 : ℚ), (2 : ℚ)) := by
  have hfin : mixedPlan.finiteLength = 5 := by
    simp only [mixedPlan, ShipPlan.finiteLength, ShipPlan.addLeg, ShipPlan.init,
      List.nil_append, List.append_assoc, List.cons_append, List.singleton_append,
      List.map_cons, List.map_nil, List.sum_cons, List.sum_nil]
    rw [if_pos (by norm_num : (0 : ℚ) ≤ (Leg.mk 2 10 1).length),
      if_pos (by norm_num : (0 : ℚ) ≤ (Leg.mk 3 20 2).length),
      if_neg (by norm_num : ¬ (0 : ℚ) ≤ (Leg.mk (-1) 30 3).length)]
    norm_num
  have htot : mixedPlan.totalLength = 4 := by
    simp only [mixedPlan, ShipPlan.addLeg, ShipPlan.init]
    norm_num
  have hlegs : mixedPlan.legs = [⟨2, 10, 1⟩, ⟨3, 20, 2⟩, ⟨-1, 30, 3⟩] := by
    simp [mixedPlan, ShipPlan.addLeg, ShipPlan.init]
  refine ⟨hfin, ?_, ?_, by
    intro h
    have h1 : (10 : ℚ) = 20 := congrArg Prod.fst h
    norm_num at h1⟩
  · simp only [ShipPlan.courseAtTime, htot, hlegs]
    rw [if_neg (by norm_num : ¬ (4 : ℚ) = 0)]
    rw [show pymod 1 4 = 1 by
      unfold pymod
      rw [show (⌊(1 : ℚ) / 4⌋ : ℤ) = 0 by norm_num]
      norm_num]
    rw [scanLegs.eq_def]
    dsimp only
    rw [if_neg (by norm_num : ¬ (2 : ℚ) < 0)]
    rw [if_pos (by norm_num : (1 : ℚ) < 0 + 2)]
    rfl
  · rw [hfin]
    simp only [ShipPlan.courseAtTime, htot, hlegs]
    rw [if_neg (by norm_num : ¬ (4 : ℚ) = 0)]
    rw [show pymod (1 + 5) 4 = 2 by
      unfold pymod
      rw [show ((1 : ℚ) + 5) / 4 = 3 / 2 by norm_num]
      rw [show (⌊(3 : ℚ) / 2⌋ : ℤ) = 1 by norm_num]
      norm_num]
    rw [scanLegs.eq_def]
    dsimp only
    rw [if_neg (by norm_num : ¬ (2 : ℚ) < 0)]
    rw [if_neg (by norm_num : ¬ (2 : ℚ) < 0 + 2)]
    rw [scanLegs.eq_def]
    dsimp only
    rw [if_neg (by norm_num : ¬ (3 : ℚ) < 0)]
    rw [if_pos (by norm_num : (2 : ℚ) < 0 + 2 + 3)]
    rfl

/-- Claim C5 amended: courseAtTime is periodic with period equal to the
plan's stored total length — the sum of all leg lengths, sentinels
included, which equals the total finite leg length only for plans without
sentinel legs — whenever that stored total is nonzero; and courseAtTime(0)
with a bound simulator resets it to the plan's start coordinates (the legs
list being nonempty, so that the scan returns). -/
theorem c5_period_amended (p : ShipPlan) (e : ℚ) (sim : Option GPSState) (s : GPSState)
    (hT : p.totalLength ≠ 0) :
    p.courseAtTime (e + p.totalLength) sim = p.courseAtTime e sim ∧
    (p.legs ≠ [] →
      (p.courseAtTime 0 (some s)).map Prod.snd =
        some (some (setLatLon p.startlatitude p.startlongitude s))) := by
  constructor
  · simp only [ShipPlan.courseAtTime, if_neg hT]
    rw [pymod_add_self hT]
  · intro hlegs
    simp only [ShipPlan.courseAtTime, if_neg hT]
    rw [pymod_zero_left, if_pos rfl]
    obtain ⟨cs, hcs⟩ := Option.isSome_iff_exists.mp (scanLegs_isSome 0 p.legs 0 hlegs)
    rw [hcs]
    simp

/-- Claim C5 amended witness: periodicity and the reset at elapsed 0 for
the two-leg plan of the repository tests (total stored length 120) and the
concrete simulator state `blankState`. -/
theorem c5_period_amended_witness :
    twoLegPlan.courseAtTime (30 + twoLegPlan.totalLength) none =
      twoLegPlan.courseAtTime 30 none ∧
    (twoLegPlan.courseAtTime 0 (some blankState)).map Prod.snd =
      some (some (setLatLon twoLegPlan.startlatitude twoLegPlan.startlongitude blankState)) :=
  ⟨(c5_period_amended twoLegPlan 30 none blankState
      (by simp only [twoLegPlan, ShipPlan.addLeg, ShipPlan.init]; norm_num)).1,
   (c5_period_amended twoLegPlan 30 none blankState
      (by simp only [twoLegPlan, ShipPlan.addLeg, ShipPlan.init]; norm_num)).2
     (by simp [twoLegPlan, ShipPlan.addLeg, ShipPlan.init])⟩

/-- Claim C6: for the plan whose only leg is the sentinel
{length = -1, course = 0, speed = 10}, courseAtTime returns (0, 10) for
every elapsed value — the negative length short-circuits the scan on the
first leg, whatever the reduced elapsed value is. -/
theorem c6_sentinel_short_circuit (e : ℚ) (sim : Option GPSState) :
    (sentinelPlan.courseAtTime e sim).map Prod.fst = some (0, 10) := by
  have htot : sentinelPlan.totalLength = -1 := by
    simp only [sentinelPlan, ShipPlan.addLeg, ShipPlan.init]
    norm_num
  have hlegs : sentinelPlan.legs = [⟨-1, 0, 10⟩] := by
    simp [sentinelPlan, ShipPlan.addLeg, ShipPlan.init]
  simp only [ShipPlan.courseAtTime, htot, hlegs]
  rw [if_neg (by norm_num : ¬ (-1 : ℚ) = 0)]
  rw [scanLegs.eq_def]
  dsimp only
  rw [if_pos (by norm_num : (-1 : ℚ) < 0)]
  simp

/-- Claim C7 counterexample: append one entry to a fresh session and then
remove it.  remove's clamp `index = min(len(runqueue) - 1, index)` sets
the cursor to -1 on the now-empty queue, so the claimed invariant
0 ≤ index < len(runQueue) fails in a reachable state. -/
theorem c7_index_counterexample :
    TestSession.remove 0 (TestSession.append 0 (⟨[], 0⟩ : TestSession ℕ)) =
      .ok (⟨[], -1⟩ : TestSession ℕ) ∧
    ¬ (0 : ℤ) ≤ (-1 : ℤ) := by
  constructor
  · rfl
  · decide

/-- Claim C7 amended: choose returns runQueue[index] and advances the
cursor to (index + 1) mod the current length, and keeps 0 ≤ index < len,
provided the cursor was in range to begin with; remove keeps the cursor in
range provided it was non-negative and the remaining queue is nonempty —
but when the removal empties the queue the cursor becomes -1 (see the
counterexample), so the bound holds only under these provisos. -/
theorem c7_index_amended {α : Type} [DecidableEq α] (s : TestSession α) (x : α) :
    (0 ≤ s.index → s.index < (s.runqueue.length : ℤ) →
      ∃ y, s.choose = .ok (y, ⟨s.runqueue, (s.index + 1) % (s.runqueue.length : ℤ)⟩) ∧
        pyIndex s.runqueue s.index = .ok y ∧
        0 ≤ (s.index + 1) % (s.runqueue.length : ℤ) ∧
        (s.index + 1) % (s.runqueue.length : ℤ) < (s.runqueue.length : ℤ)) ∧
    (0 ≤ s.index → x ∈ s.runqueue → s.runqueue.erase x ≠ [] →
      ∃ t, TestSession.remove x s = .ok t ∧ 0 ≤ t.index ∧
        t.index < (t.runqueue.length : ℤ)) := by
  constructor
  · intro h0 hlen
    have hnz : s.runqueue.length ≠ 0 := by omega
    have hj : s.index.toNat < s.runqueue.length := by omega
    have hok : pyIndex s.runqueue s.index = .ok (s.runqueue.get ⟨s.index.toNat, hj⟩) := by
      simp only [pyIndex]
      have hjeq : (if s.index < 0 then s.index + (s.runqueue.length : ℤ) else s.index) =
          s.index := if_neg (not_lt.mpr h0)
      simp only [hjeq]
      rw [if_pos h0, List.get?_eq_get hj]
    refine ⟨s.runqueue.get ⟨s.index.toNat, hj⟩, ?_, hok,
      Int.emod_nonneg _ (by exact_mod_cast hnz),
      Int.emod_lt_of_pos _ (by exact_mod_cast Nat.pos_of_ne_zero hnz)⟩
    unfold TestSession.choose
    rw [if_neg hnz, hok]
    rfl
  · intro h0 hmem hne
    have hlen : 1 ≤ (s.runqueue.erase x).length := List.length_pos.mpr hne
    refine ⟨⟨s.runqueue.erase x, min (((s.runqueue.erase x).length : ℤ) - 1) s.index⟩, ?_, ?_, ?_⟩
    · unfold TestSession.remove
      rw [if_pos hmem]
    · simp only []
      omega
    · simp only []
      omega

/-- Claim C7 amended witness: the choose and remove bounds at the concrete
two-entry session with cursor 0, removing the entry 1. -/
theorem c7_index_amended_witness :
    (∃ y, sessionExample.choose =
        .ok (y, ⟨sessionExample.runqueue,
          (sessionExample.index + 1) % (sessionExample.runqueue.length : ℤ)⟩) ∧
      pyIndex sessionExample.runqueue sessionExample.index = .ok y ∧
      0 ≤ (sessionExample.index + 1) % (sessionExample.runqueue.length : ℤ) ∧
      (sessionExample.index + 1) % (sessionExample.runqueue.length : ℤ) <
        (sessionExample.runqueue.length : ℤ)) ∧
    (∃ t, TestSession.remove 1 sessionExample = .ok t ∧ 0 ≤ t.index ∧
      t.index < (t.runqueue.length : ℤ)) :=
  ⟨(c7_index_amended sessionExample 1).1 (by decide) (by decide),
   (c7_index_amended sessionExample 1).2 (by decide) (by decide) (by decide)⟩

/-- Claim C8: run() called on a session whose run queue is empty does not
return normally: the loop body reaches choose() before the empty-queue
termination test, and choose's `index %= len(runqueue)` divides by zero —
the modelled first turn is the ZeroDivisionError outcome.  This
contradicts the documented behavior (module docstring: with no fake GPS
or client created, run() "will terminate immediately"), so the code, not
the claim, is at fault. -/
theorem c8_run_empty_queue :
    TestSession.runFirstTurn (⟨[], 0⟩ : TestSession ℕ) = .error .zeroDivision := rfl

theorem setLatLon_starttime (a b : ℚ) (st : GPSState) :
    (setLatLon a b st).starttime = st.starttime := by
  simp [setLatLon]

theorem setLatLon_latitude (a b : ℚ) (st : GPSState) :
    (setLatLon a b st).latitude = a := by
  simp [setLatLon]

theorem setLatLon_longitude (a b : ℚ) (st : GPSState) :
    (setLatLon a b st).longitude = b := by
  simp [setLatLon]

/-- Claim C9: on the turn when the go predicate first returns false (the
exhausted mark still 0), the device is marked exhausted with the current
time and is not fed; a removal only ever happens on a turn where the mark
is already set and more than CLOSE_DELAY has passed since it — never on
the marking turn itself; later false predicate results leave the stored
mark unchanged; and a marked device is removed exactly when the grace
interval has elapsed. -/
theorem c9_grace_interval (now t : ℚ) (pred : Bool) (d : FakePTY) :
    (d.exhausted = 0 → pred = false →
      deviceTurn now pred d = (.marked, ⟨now⟩)) ∧
    (∀ d2, deviceTurn now pred d = (.removed, d2) →
      d.exhausted ≠ 0 ∧ CLOSE_DELAY < now - d.exhausted) ∧
    (d.exhausted ≠ 0 → pred = false →
      ((deviceTurn now pred d).2).exhausted = d.exhausted) ∧
    (t ≠ 0 → CLOSE_DELAY < now - t →
      deviceTurn now pred (⟨t⟩ : FakePTY) = (.removed, ⟨t⟩)) ∧
    (now - t ≤ CLOSE_DELAY → ∀ d2, deviceTurn now pred (⟨t⟩ : FakePTY) ≠ (.removed, d2)) := by
  refine ⟨?_, ?_, ?_, ?_, ?_⟩
  · intro h1 h2
    unfold deviceTurn
    rw [if_neg (by simp [h1])]
    rw [if_pos h2, if_pos h1]
  · intro d2 hEq
    unfold deviceTurn at hEq
    split_ifs at hEq with ha
    · exact ha
    all_goals simp_all
  · intro h1 _
    unfold deviceTurn
    split_ifs <;> simp_all
  · intro h1 h2
    unfold deviceTurn
    rw [if_pos (show (⟨t⟩ : FakePTY).exhausted ≠ 0 ∧
      CLOSE_DELAY < now - (⟨t⟩ : FakePTY).exhausted from ⟨h1, h2⟩)]
  · intro h d2 hEq
    unfold deviceTurn at hEq
    split_ifs at hEq with ha
    · exact absurd ha.2 (not_lt.mpr h)
    all_goals simp_all

/-- Claim C9 witness: the lifecycle facts at concrete times — at time 3 a
still-active device with a false predicate is marked exhausted at 3 and
not fed; a device marked at time 1 is removed at time 3 (grace interval
CLOSE_DELAY = 1 exceeded). -/
theorem c9_grace_interval_witness :
    deviceTurn 3 false (⟨0⟩ : FakePTY) = (.marked, ⟨3⟩) ∧
    deviceTurn 3 false (⟨1⟩ : FakePTY) = (.removed, ⟨1⟩) :=
  ⟨(c9_grace_interval 3 1 false ⟨0⟩).1 rfl rfl,
   (c9_grace_interval 3 1 false ⟨0⟩).2.2.2.1 (by norm_num)
     (by rw [show CLOSE_DELAY = 1 from rfl]; norm_num)⟩

/-- Claim C10: constructing a GPSSimulator with a bound plan (nonzero
stored total length, nonempty legs) evaluates the plan at elapsed time 0:
the stored position is the plan's start coordinates — the latitude and
longitude passed to the constructor do not survive — and the stored
heading and speed are the first applicable leg's (course, speed), the
result of the leg scan at elapsed 0. -/
theorem c10_plan_overrides_position (currtime lat lon course speed : ℚ) (p : ShipPlan)
    (hT : p.totalLength ≠ 0) (hlegs : p.legs ≠ []) :
    (GPSSimulator.init currtime lat lon course speed (some p)).map GPSState.latitude =
      some p.startlatitude ∧
    (GPSSimulator.init currtime lat lon course speed (some p)).map GPSState.longitude =
      some p.startlongitude ∧
    (GPSSimulator.init currtime lat lon course speed (some p)).map
      (fun st => (st.heading, st.speed)) = scanLegs 0 p.legs 0 := by
  obtain ⟨cs, hcs⟩ := Option.isSome_iff_exists.mp (scanLegs_isSome 0 p.legs 0 hlegs)
  simp only [GPSSimulator.init, setTime, ShipPlan.courseAtTime, setLatLon_starttime]
  rw [sub_self, if_neg hT, pymod_zero_left, if_pos rfl, hcs]
  refine ⟨?_, ?_, ?_⟩
  · simp [setLatLon_latitude]
  · simp [setLatLon_longitude]
  · simp [hcs]

/-- Claim C10 witness: the constructor facts for the one-leg plan with
start (5, 6) and leg (60, 7, 8), constructed at position (57, 11): the
resulting state is at (5, 6) with heading 7 and speed 8. -/
theorem c10_plan_overrides_position_witness :
    (GPSSimulator.init 100 57 11 0 1 (some oneLegPlan)).map GPSState.latitude =
      some oneLegPlan.startlatitude ∧
    (GPSSimulator.init 100 57 11 0 1 (some oneLegPlan)).map GPSState.longitude =
      some oneLegPlan.startlongitude ∧
    (GPSSimulator.init 100 57 11 0 1 (some oneLegPlan)).map
      (fun st => (st.heading, st.speed)) = scanLegs 0 oneLegPlan.legs 0 :=
  c10_plan_overrides_position 100 57 11 0 1 oneLegPlan
    (by simp only [oneLegPlan, ShipPlan.addLeg, ShipPlan.init]; norm_num)
    (by simp [oneLegPlan, ShipPlan.addLeg, ShipPlan.init])
